import Mathlib

/-!
Shallow embedding of the client-side synchronization core of the intrad
dashboard (src/static/app.js and src/unnamed/part_000): the snapshot store,
the periodic sync loop (fetchSystemData), the bounded P&L time-series
buffer, the chart downsampler (getFilteredChartData / mockHistoricalData),
the mode-switch state machine (confirmModeSwitch), and the per-instrument
market-price classification of updateMarketHeader.

Conventions: JS numbers that the core only stores and compares are embedded
as Int; nullable / possibly-undefined values as Option; a fetch response is
a four-way outcome (network failure at fetch, HTTP non-OK, OK body whose
JSON decode throws, OK body with decoded payload).  DOM writes, console
logging and alert text are not modelled; locale time formatting is
abstracted to the strings supplied by the environment.
-/

/-- Outcome of one awaited fetch of a read endpoint, as seen by the caller:
fetch itself can reject (network failure), the response can be non-OK
(in which case the source never calls res.json), or it is OK and res.json
either throws (malformed body) or yields a decoded payload. -/
inductive Resp (α : Type) where
  | netErr : Resp α
  | notOk : Resp α
  | okMalformed : Resp α
  | okJson (a : α) : Resp α
deriving DecidableEq, Repr

/-- True when awaiting this response body cannot throw inside the sync
loop: the response is either non-OK (body never read) or cleanly decoded. -/
def Resp.throwFree {α : Type} : Resp α → Bool
  | .netErr => false
  | .okMalformed => false
  | .notOk => true
  | .okJson _ => true

/-- True when the fetch call itself rejected (network failure). -/
def Resp.isNetErr {α : Type} : Resp α → Bool
  | .netErr => true
  | _ => false

/-- Metrics payload of GET /api/v1/dashboard/metrics; the sync loop stores
it wholesale and reads daily_pnl for the chart buffer; total_capital and
execution_mode are the other fields the surrounding code reads. -/
structure Metrics where
  daily_pnl : Int
  total_capital : Int
  execution_mode : Option String
deriving DecidableEq, Repr

/-- One open-position record of GET /api/v1/trades/open, with the fields
the rendering code reads (t.instrument, t.direction, t.status, t.pnl). -/
structure Trade where
  instrument : String
  direction : String
  status : String
  pnl : Int
deriving DecidableEq, Repr

/-- One alert-log record of GET /api/v1/alerts/logs. -/
structure LogEntry where
  timestamp : String
  message : String
deriving DecidableEq, Repr

/-- Balance payload of GET /api/v1/account/balance (state.account_update). -/
structure AccountUpdate where
  balance : Int
deriving DecidableEq, Repr

/-- One decision event of GET /api/v1/agents/audit, with the fields the
consumers read (e.agent, e.symbol, e.state, e.timestamp). -/
structure AuditEvent where
  timestamp : String
  agent : String
  symbol : String
  state : String
deriving DecidableEq, Repr

/-- The session-global snapshot store plus the P&L time-series buffer:
the fields of the module-level state object that the sync loop owns.
agentV2Status is the object mapping agent name to status, embedded as an
association list. -/
structure SyncState where
  isAuth : Bool
  metrics : Option Metrics
  trades : List Trade
  logs : List LogEntry
  account_update : Option AccountUpdate
  agentV2Status : List (String × String)
  auditTrail : List AuditEvent
  pnlHistory : List Int
  pnlTimestamps : List String
  pnlFullTimestamps : List String
deriving DecidableEq, Repr

/-- The initial session state, from the state object literal at the top of
the script: metrics null, every sequence empty.  This is also the state the
three buffer sequences are in right after window.location.reload re-runs
the script. -/
def initState : SyncState :=
  { isAuth := false
    metrics := none
    trades := []
    logs := []
    account_update := none
    agentV2Status := []
    auditTrail := []
    pnlHistory := []
    pnlTimestamps := []
    pnlFullTimestamps := [] }

/-- The inputs one sync-loop tick consumes: the six endpoint responses of
that tick, and the two locale-formatted renderings of the current time
(compact for axis labels, full for tooltips). -/
structure TickInputs where
  mRes : Resp Metrics
  tRes : Resp (List Trade)
  lRes : Resp (List LogEntry)
  aRes : Resp AccountUpdate
  sRes : Resp (List (String × String))
  dRes : Resp (List AuditEvent)
  compressedTime : String
  fullTime : String

/-- Field update for a successful metrics response
(state.metrics = await mRes.json). -/
def putMetrics (m : Metrics) (s : SyncState) : SyncState := { s with metrics := some m }

/-- Field update for a successful trades response. -/
def putTrades (t : List Trade) (s : SyncState) : SyncState := { s with trades := t }

/-- Field update for a successful logs response. -/
def putLogs (l : List LogEntry) (s : SyncState) : SyncState := { s with logs := l }

/-- Field update for a successful balance response: stores the payload
and then runs the ACCOUNT_UPDATE listener registered by initDashboard,
which window.dispatchEvent invokes synchronously.  For a decoded balance
payload the listener guard (data and data.balance not undefined) passes,
and if state.metrics is truthy the listener assigns
state.metrics.total_capital = data.balance; the DOM refresh it also
performs is not modelled. -/
def putAccount (a : AccountUpdate) (s : SyncState) : SyncState :=
  let s1 := { s with account_update := some a }
  match s1.metrics with
  | some m => { s1 with metrics := some { m with total_capital := a.balance } }
  | none => s1

/-- Field update for a successful agent-status response. -/
def putAgents (g : List (String × String)) (s : SyncState) : SyncState := { s with agentV2Status := g }

/-- Field update for a successful audit-trail response. -/
def putAudit (d : List AuditEvent) (s : SyncState) : SyncState := { s with auditTrail := d }

/-- One guarded application step inside the shared try block:
if (res.ok) field = await res.json().  A non-OK response applies nothing;
a malformed body throws, carrying the state mutated so far to the catch. -/
def appIf {α : Type} (r : Resp α) (put : α → SyncState → SyncState) (s : SyncState) :
    Except SyncState SyncState :=
  match r with
  | .netErr => .ok s
  | .notOk => .ok s
  | .okMalformed => .error s
  | .okJson a => .ok (put a s)

/-- The endpoint-application phase of one tick of fetchSystemData, inside
the single try block: the four awaited fetches for metrics, trades, logs
and balance happen before any application, so a network failure on any of
them throws with no field applied; then each OK response is applied in
order (a malformed body throws, keeping the fields already applied); then
the two agent endpoints are fetched and applied the same way.  error
carries the state at the moment of the throw. -/
def applyPhase (i : TickInputs) (s : SyncState) : Except SyncState SyncState :=
  if i.mRes.isNetErr || i.tRes.isNetErr || i.lRes.isNetErr || i.aRes.isNetErr then .error s
  else
    (appIf i.mRes putMetrics s).bind fun s1 =>
    (appIf i.tRes putTrades s1).bind fun s2 =>
    (appIf i.lRes putLogs s2).bind fun s3 =>
    (appIf i.aRes putAccount s3).bind fun s4 =>
    if i.sRes.isNetErr || i.dRes.isNetErr then .error s4
    else
      (appIf i.sRes putAgents s4).bind fun s5 =>
      appIf i.dRes putAudit s5

/-- Hard cap of the P&L buffer (const MAX_HISTORY = 900). -/
def MAX_HISTORY : Nat := 900

/-- The buffer insertion of fetchSystemData: push the metric value and the
two timestamp renderings onto the three parallel arrays, then, if the
values array now exceeds MAX_HISTORY, shift one element off the front of
each of the three arrays. -/
def pushPnlPoint (v : Int) (ct ft : String) (s : SyncState) : SyncState :=
  let s1 := { s with
    pnlHistory := s.pnlHistory ++ [v]
    pnlTimestamps := s.pnlTimestamps ++ [ct]
    pnlFullTimestamps := s.pnlFullTimestamps ++ [ft] }
  if s1.pnlHistory.length > MAX_HISTORY then
    { s1 with
      pnlHistory := s1.pnlHistory.tail
      pnlTimestamps := s1.pnlTimestamps.tail
      pnlFullTimestamps := s1.pnlFullTimestamps.tail }
  else s1

/-- One tick of the sync loop (async function fetchSystemData), embedded as
a state transformer on the snapshot store given the six responses of the
tick.  Guard: returns immediately when not authenticated.  The whole body
sits in one try whose catch only logs, so a throw anywhere yields the
state accumulated up to the throw and the tick still returns normally.
After the application phase, if state.metrics is truthy (set by this or
any earlier tick), one point is pushed onto the buffer and trimmed.  The
trailing DOM refreshes (updateDashboardUI, chart refresh, pattern refresh)
and the DOM-only fetchRiskRules call are not modelled. -/
def fetchSystemData (i : TickInputs) (s : SyncState) : SyncState :=
  if !s.isAuth then s
  else
    match applyPhase i s with
    | .error t => t
    | .ok t =>
        match t.metrics with
        | none => t
        | some m => pushPnlPoint m.daily_pnl i.compressedTime i.fullTime t

/-- The reset branch of controlSystem: after the destructive-action confirm
dialog, it assigns state.logs = [] and state.pnlHistory = [] and nothing
else, then alerts and calls window.location.reload (an external browser
navigation that re-creates the script state as initState); declining the
confirm returns with no change. -/
def controlSystemReset (confirmed : Bool) (s : SyncState) : SyncState :=
  if confirmed then { s with logs := [], pnlHistory := [] } else s

/-- One range entry of the rangeConfig table of getFilteredChartData:
the tail-window size and the stride of the decimation. -/
structure RangeCfg where
  points : Nat
  step : Nat
deriving DecidableEq, Repr

/-- The rangeConfig lookup table: the six supported ranges; any other key
yields undefined (none), which the caller replaces by the 1D entry. -/
def rangeConfig (r : String) : Option RangeCfg :=
  if r = "1D" then some ⟨500, 1⟩
  else if r = "5D" then some ⟨1500, 2⟩
  else if r = "1M" then some ⟨3000, 5⟩
  else if r = "3M" then some ⟨5000, 10⟩
  else if r = "6M" then some ⟨8000, 20⟩
  else if r = "1Y" then some ⟨12000, 50⟩
  else none

/-- The rendering-ready series returned by the downsampler: axis labels,
numeric series, and tooltip timestamps. -/
structure ChartData where
  labels : List String
  data : List Int
  fullTimestamps : List String
deriving DecidableEq, Repr

/-- The stride decimation of getFilteredChartData:
arr.filter((unused, i) => i % step === 0), keeping the elements whose index
in the slice is a multiple of the stride. -/
def strideFilter {α : Type} (step : Nat) (l : List α) : List α :=
  (l.enum.filter (fun p => p.fst % step == 0)).map Prod.snd

/-- The synthetic placeholder series of mockHistoricalData: one hundred
points of a random walk started at 500, each step drawn from Math.random.
The i-th draw (Math.random() - 0.45) * 50 is abstracted as the integer
rand i supplied by the environment, and the locale-formatted label of the
point one hour apart is abstracted as the decimal rendering of its epoch
milliseconds; the range argument is unused in the source body as well. -/
def mockBase (rand : Nat → Int) : Nat → Int
  | 0 => 500 + rand 0
  | n + 1 => mockBase rand n + rand (n + 1)

/-- Synthetic fallback series builder (function mockHistoricalData): fixed
point count 100, values from the abstracted random walk, labels and
tooltip timestamps derived from the current clock at one-hour spacing. -/
def mockHistoricalData (range : String) (rand : Nat → Int) (nowMs : Int) : ChartData :=
  let _ := range
  { labels := (List.range 100).map fun i => toString (nowMs - (100 - Int.ofNat i) * 3600000)
    data := (List.range 100).map fun i => mockBase rand i
    fullTimestamps := (List.range 100).map fun i => toString (nowMs - (100 - Int.ofNat i) * 3600000) }

/-- The downsampler (function getFilteredChartData), as a function of the
pieces of global state it reads (state.chartTimeRange and the three buffer
arrays) and of the ambient randomness and clock its synthetic branch
consumes.  Looks up the range in rangeConfig with fallback to the 1D
entry; if the buffer holds fewer than 50 points and the range is not the
literal string 1D, returns the synthetic series; otherwise slices the most
recent points (slice(max(0, length - limit))) and, when step exceeds one,
keeps every step-th point of each slice. -/
def getFilteredChartData (chartTimeRange : String) (pnlHistory : List Int)
    (pnlTimestamps pnlFullTimestamps : List String) (rand : Nat → Int) (nowMs : Int) :
    ChartData :=
  let cfg := (rangeConfig chartTimeRange).getD ⟨500, 1⟩
  let limit := cfg.points
  let step := cfg.step
  if pnlHistory.length < 50 && chartTimeRange != "1D" then
    mockHistoricalData chartTimeRange rand nowMs
  else
    let startIdx := pnlHistory.length - limit
    let slicedData := pnlHistory.drop startIdx
    let slicedTimestamps := pnlTimestamps.drop startIdx
    let slicedFullTimestamps := pnlFullTimestamps.drop startIdx
    if step > 1 then
      { labels := strideFilter step slicedTimestamps
        data := strideFilter step slicedData
        fullTimestamps := strideFilter step slicedFullTimestamps }
    else
      { labels := slicedTimestamps
        data := slicedData
        fullTimestamps := slicedFullTimestamps }

/-- Outcome of the awaited POST /api/v1/system/mode call, as seen inside
the try block of confirmModeSwitch: the 10s AbortController timeout fired,
the fetch rejected with a network failure, the response was non-OK (with
the optional detail field of its error body and its HTTP status), the OK
body failed to decode, or an OK decoded body with its status, mode,
data_status, detail and message fields. -/
inductive ModeResp where
  | abortTimeout : ModeResp
  | networkFailure : ModeResp
  | httpError (detail : Option String) (status : Nat) : ModeResp
  | decodeFailure : ModeResp
  | body (bodyStatus : String) (mode : String) (data_status : String)
      (detail : Option String) (message : Option String) : ModeResp
deriving DecidableEq, Repr

/-- How one confirmModeSwitch call terminated, mirroring the distinct user
surfacings of the source: the in-flight guard alert, the silent return on
a declined REAL confirmation, success, the backend-rejection alert with
its verbatim reason, and the classified catch alerts (timeout, network,
decode, generic with message). -/
inductive SwitchOutcome where
  | unavailable : SwitchOutcome
  | declined : SwitchOutcome
  | success : SwitchOutcome
  | blocked (reason : String) : SwitchOutcome
  | errTimeout : SwitchOutcome
  | errNetwork : SwitchOutcome
  | errDecode : SwitchOutcome
  | errOther (msg : String) : SwitchOutcome
deriving DecidableEq, Repr

/-- The two DOM targets updateExecutionModeUI writes on a successful
switch: the displayed execution mode and the displayed data status. -/
structure ModeUI where
  displayedMode : Option String
  displayedDataStatus : Option String
deriving DecidableEq, Repr

/-- The state confirmModeSwitch touches: the snapshot store it resyncs on
success, the mode display, and the module-level isSwitchingMode flag. -/
structure AppState where
  sync : SyncState
  ui : ModeUI
  isSwitchingMode : Bool
deriving DecidableEq, Repr

/-- JS disjunction a or-else b over possibly-missing strings, where the
empty string is falsy. -/
def jsStringOr (a : Option String) (b : String) : String :=
  match a with
  | some s => if s = "" then b else s
  | none => b

/-- The try/catch body of confirmModeSwitch after the in-flight flag is
set: on a decoded body with status success it updates the mode display
and triggers one immediate resync tick (fetchSystemData), otherwise it
surfaces the rejection reason (data.detail or data.message or Unknown
error); a thrown non-OK error, decode failure, abort or network failure
reaches the catch, which classifies the message and leaves state alone.
A non-OK error whose detail text itself contains the sniffed substrings
(JSON, Failed to fetch) would be classified differently; that string
sniffing inside the generic arm is not modelled. -/
def modeSwitchTryBody (resp : ModeResp) (ti : TickInputs) (s : AppState) :
    AppState × SwitchOutcome :=
  match resp with
  | .abortTimeout => (s, .errTimeout)
  | .networkFailure => (s, .errNetwork)
  | .decodeFailure => (s, .errDecode)
  | .httpError d st => (s, .errOther (jsStringOr d ("HTTP " ++ toString st)))
  | .body bst m ds d msg =>
      if bst = "success" then
        ({ s with ui := ⟨some m, some ds⟩, sync := fetchSystemData ti s.sync }, .success)
      else
        (s, .blocked (jsStringOr d (jsStringOr msg "Unknown error")))

/-- The mode-switch entry point (async function confirmModeSwitch), as a
function of the requested mode, the result the REAL-mode confirm dialog
would return, the network outcome of the attempt, and the responses the
success-path resync tick would consume.  Returns the new state, whether a
network request was issued, and how the call terminated.  The guard
rejects while isSwitchingMode is set; a declined REAL confirmation
returns before the flag is set and before any fetch; otherwise the flag
is set, the try body runs, and the finally clause clears the flag on
every terminal path.  The optimistic highlighting of the selected modal
option is a DOM class toggle and is not modelled. -/
def confirmModeSwitch (mode : String) (confirmResult : Bool) (resp : ModeResp)
    (ti : TickInputs) (s : AppState) : AppState × Bool × SwitchOutcome :=
  if s.isSwitchingMode then (s, false, .unavailable)
  else if mode = "REAL" && !confirmResult then (s, false, .declined)
  else
    let s1 := { s with isSwitchingMode := true }
    let r := modeSwitchTryBody resp ti s1
    ({ r.fst with isSwitchingMode := false }, true, r.snd)

/-- One per-instrument payload item handled by updateMarketHeader, with the
fields its price box rendering reads; a missing JS field is none. -/
structure MarketItem where
  instrument : Option String
  ltp : Option Int
  close : Option Int
  status : Option String
  data_status : Option String
deriving DecidableEq, Repr

/-- The visual classification a rendered (non-loading) price box ends in:
stale or market-closed badge, virtual badge, or the live default. -/
inductive StatusClass where
  | staleOrClosed (label : String) : StatusClass
  | virtual : StatusClass
  | live : StatusClass
deriving DecidableEq, Repr

/-- What one price box displays after updateMarketHeader processes one
item: either the loading shimmer (with the change cell showing a dash
placeholder and no computed percentage), or a rendered price with its
change, its optional percentage (only computed when close is positive and
the normalized ltp is present) and its status class. -/
inductive PriceDisplay where
  | loading (symbol : String) : PriceDisplay
  | price (symbol : String) (ltp : Int) (change : Int) (pct : Option Rat)
      (cls : StatusClass) : PriceDisplay
deriving DecidableEq, Repr

/-- The per-item reconciliation of updateMarketHeader: normalizes ltp = 0
to null, derives close by JS falsy fallback (item.close or the normalized
ltp or 1), computes change and the percentage guardedly, resolves the
status (item.status or item.data_status or LIVE, empty strings falsy),
and renders the loading shimmer when the normalized ltp is null/undefined
or the status is the literal LOADING; otherwise renders the price with
the status-classified badge.  The transient flash pulse compares against
the previously rendered DOM value and is cosmetic; it is not modelled. -/
def updateMarketItem (selectedMarket : String) (item : MarketItem) : PriceDisplay :=
  let symbol := jsStringOr item.instrument selectedMarket
  let ltp : Option Int :=
    match item.ltp with
    | some v => if v = 0 then none else some v
    | none => none
  let close : Int :=
    match item.close with
    | some c => if c ≠ 0 then c else match ltp with | some v => v | none => 1
    | none => match ltp with | some v => v | none => 1
  let change : Int := match ltp with | some v => v - close | none => 0
  let pct : Option Rat :=
    if close > 0 ∧ ltp.isSome then some ((change : Rat) / (close : Rat) * 100) else none
  let itemStatus := jsStringOr item.status (jsStringOr item.data_status "LIVE")
  if ltp.isNone ∨ itemStatus = "LOADING" then .loading symbol
  else
    let cls : StatusClass :=
      if itemStatus = "STALE" ∨ itemStatus = "MARKET_CLOSED" then .staleOrClosed itemStatus
      else if itemStatus = "VIRTUAL" then .virtual
      else .live
    .price symbol (ltp.getD 0) change pct cls

/-! ## Helper lemmas about the sync loop -/

/-- The snapshot state an endpoint-application run ends in, whether the
try block completed or threw. -/
def exceptState : Except SyncState SyncState → SyncState
  | .ok t => t
  | .error t => t

/-- Two states agree on the three buffer sequences. -/
def PnlSame (u s : SyncState) : Prop :=
  u.pnlHistory = s.pnlHistory ∧ u.pnlTimestamps = s.pnlTimestamps ∧
    u.pnlFullTimestamps = s.pnlFullTimestamps

theorem PnlSame.rfl' (s : SyncState) : PnlSame s s := ⟨rfl, rfl, rfl⟩

theorem PnlSame.trans' {a b c : SyncState} (h1 : PnlSame a b) (h2 : PnlSame b c) :
    PnlSame a c :=
  ⟨h1.1.trans h2.1, h1.2.1.trans h2.2.1, h1.2.2.trans h2.2.2⟩

theorem appIf_pnlSame {α : Type} (r : Resp α) (put : α → SyncState → SyncState)
    (hput : ∀ a u, PnlSame (put a u) u) (s : SyncState) :
    PnlSame (exceptState (appIf r put s)) s := by
  cases r with
  | netErr => exact PnlSame.rfl' s
  | notOk => exact PnlSame.rfl' s
  | okMalformed => exact PnlSame.rfl' s
  | okJson a => exact hput a s

theorem bind_pnlSame {e : Except SyncState SyncState}
    {f : SyncState → Except SyncState SyncState} {s : SyncState}
    (he : PnlSame (exceptState e) s)
    (hf : ∀ u, PnlSame (exceptState (f u)) u) :
    PnlSame (exceptState (e.bind f)) s := by
  cases e with
  | error u => exact he
  | ok u => exact PnlSame.trans' (hf u) he

theorem putAccount_pnlSame (a : AccountUpdate) (u : SyncState) :
    PnlSame (putAccount a u) u := by
  unfold PnlSame putAccount
  cases h : u.metrics <;> simp [h]

theorem applyPhase_pnl (i : TickInputs) (s : SyncState) :
    PnlSame (exceptState (applyPhase i s)) s := by
  unfold applyPhase
  split
  · exact PnlSame.rfl' s
  · refine bind_pnlSame (appIf_pnlSame i.mRes putMetrics (fun a u => ⟨rfl, rfl, rfl⟩) s)
      fun s1 => ?_
    refine bind_pnlSame (appIf_pnlSame i.tRes putTrades (fun a u => ⟨rfl, rfl, rfl⟩) s1)
      fun s2 => ?_
    refine bind_pnlSame (appIf_pnlSame i.lRes putLogs (fun a u => ⟨rfl, rfl, rfl⟩) s2)
      fun s3 => ?_
    refine bind_pnlSame (appIf_pnlSame i.aRes putAccount putAccount_pnlSame s3)
      fun s4 => ?_
    split
    · exact PnlSame.rfl' s4
    · exact bind_pnlSame (appIf_pnlSame i.sRes putAgents (fun a u => ⟨rfl, rfl, rfl⟩) s4)
        fun s5 => appIf_pnlSame i.dRes putAudit (fun a u => ⟨rfl, rfl, rfl⟩) s5

/-- What one guarded application step does when its response cannot throw. -/
def cleanApply {α : Type} (r : Resp α) (put : α → SyncState → SyncState)
    (s : SyncState) : SyncState :=
  match r with
  | .okJson a => put a s
  | _ => s

/-- The snapshot a fully clean tick (no network failure, no malformed
body) leaves after the application phase: each OK payload applied to its
field, in source order. -/
def applyAll (i : TickInputs) (s : SyncState) : SyncState :=
  cleanApply i.dRes putAudit (cleanApply i.sRes putAgents (cleanApply i.aRes putAccount
    (cleanApply i.lRes putLogs (cleanApply i.tRes putTrades
      (cleanApply i.mRes putMetrics s)))))

theorem appIf_clean_eq {α : Type} (r : Resp α) (put : α → SyncState → SyncState)
    (s : SyncState) (hr : r.throwFree = true) :
    appIf r put s = .ok (cleanApply r put s) := by
  cases r <;> simp_all [appIf, cleanApply, Resp.throwFree]

theorem throwFree_not_netErr {α : Type} {r : Resp α} (h : r.throwFree = true) :
    r.isNetErr = false := by
  cases r <;> simp_all [Resp.throwFree, Resp.isNetErr]

theorem applyPhase_clean (i : TickInputs) (s : SyncState)
    (hm : i.mRes.throwFree = true) (ht : i.tRes.throwFree = true)
    (hl : i.lRes.throwFree = true) (ha : i.aRes.throwFree = true)
    (hg : i.sRes.throwFree = true) (hd : i.dRes.throwFree = true) :
    applyPhase i s = .ok (applyAll i s) := by
  rw [applyPhase,
    if_neg (by simp [throwFree_not_netErr hm, throwFree_not_netErr ht,
      throwFree_not_netErr hl, throwFree_not_netErr ha]),
    appIf_clean_eq i.mRes putMetrics s hm]
  simp only [Except.bind]
  rw [appIf_clean_eq i.tRes putTrades _ ht]
  simp only [Except.bind]
  rw [appIf_clean_eq i.lRes putLogs _ hl]
  simp only [Except.bind]
  rw [appIf_clean_eq i.aRes putAccount _ ha]
  simp only [Except.bind]
  rw [if_neg (by simp [throwFree_not_netErr hg, throwFree_not_netErr hd]),
    appIf_clean_eq i.sRes putAgents _ hg]
  simp only [Except.bind]
  rw [appIf_clean_eq i.dRes putAudit _ hd]
  rfl

/-- The metrics value the store holds after the application phase of a
clean tick: the decoded payload when the metrics response was OK, the
prior value otherwise. -/
def appliedMetrics (r : Resp Metrics) (s : SyncState) : Option Metrics :=
  match r with
  | .okJson m => some m
  | _ => s.metrics

/-- The metrics value after the balance application step of a tick: an
applied balance response rewrites total_capital of the metrics value
known at that point (the synchronous ACCOUNT_UPDATE listener), and any
other balance outcome leaves it alone. -/
def balanceAdjust (r : Resp AccountUpdate) (om : Option Metrics) : Option Metrics :=
  match r, om with
  | .okJson a, some m => some { m with total_capital := a.balance }
  | _, _ => om

theorem balanceAdjust_none (r : Resp AccountUpdate) : balanceAdjust r none = none := by
  cases r <;> rfl

theorem balanceAdjust_daily (r : Resp AccountUpdate) (m : Metrics) :
    ∃ m2, balanceAdjust r (some m) = some m2 ∧ m2.daily_pnl = m.daily_pnl := by
  cases r <;> exact ⟨_, rfl, rfl⟩

theorem cleanApply_keep {α β : Type} (r : Resp α) (put : α → SyncState → SyncState)
    (f : SyncState → β) (hput : ∀ a t, f (put a t) = f t) (u : SyncState) :
    f (cleanApply r put u) = f u := by
  cases r <;> simp [cleanApply, hput]

theorem cleanApply_netErr {α : Type} (put : α → SyncState → SyncState) (u : SyncState) :
    cleanApply .netErr put u = u := rfl

theorem cleanApply_notOk {α : Type} (put : α → SyncState → SyncState) (u : SyncState) :
    cleanApply .notOk put u = u := rfl

theorem cleanApply_okMalformed {α : Type} (put : α → SyncState → SyncState) (u : SyncState) :
    cleanApply .okMalformed put u = u := rfl

theorem cleanApply_okJson {α : Type} (a : α) (put : α → SyncState → SyncState) (u : SyncState) :
    cleanApply (.okJson a) put u = put a u := rfl

theorem putAccount_metrics (a : AccountUpdate) (u : SyncState) :
    (putAccount a u).metrics = balanceAdjust (.okJson a) u.metrics := by
  unfold putAccount balanceAdjust
  cases h : u.metrics <;> simp [h]

theorem putAccount_trades (a : AccountUpdate) (u : SyncState) :
    (putAccount a u).trades = u.trades := by
  unfold putAccount
  cases h : u.metrics <;> simp [h]

theorem putAccount_logs (a : AccountUpdate) (u : SyncState) :
    (putAccount a u).logs = u.logs := by
  unfold putAccount
  cases h : u.metrics <;> simp [h]

theorem putAccount_agents (a : AccountUpdate) (u : SyncState) :
    (putAccount a u).agentV2Status = u.agentV2Status := by
  unfold putAccount
  cases h : u.metrics <;> simp [h]

theorem putAccount_audit (a : AccountUpdate) (u : SyncState) :
    (putAccount a u).auditTrail = u.auditTrail := by
  unfold putAccount
  cases h : u.metrics <;> simp [h]

theorem putAccount_account (a : AccountUpdate) (u : SyncState) :
    (putAccount a u).account_update = some a := by
  unfold putAccount
  cases h : u.metrics <;> simp [h]

theorem applyAll_metrics (i : TickInputs) (s : SyncState) :
    (applyAll i s).metrics = balanceAdjust i.aRes (appliedMetrics i.mRes s) := by
  unfold applyAll
  rw [cleanApply_keep i.dRes putAudit SyncState.metrics (fun a t => rfl),
    cleanApply_keep i.sRes putAgents SyncState.metrics (fun a t => rfl)]
  have hX : (cleanApply i.lRes putLogs (cleanApply i.tRes putTrades
      (cleanApply i.mRes putMetrics s))).metrics = appliedMetrics i.mRes s := by
    rw [cleanApply_keep i.lRes putLogs SyncState.metrics (fun a t => rfl),
      cleanApply_keep i.tRes putTrades SyncState.metrics (fun a t => rfl)]
    cases i.mRes <;> rfl
  cases i.aRes with
  | okJson a => rw [cleanApply_okJson, putAccount_metrics, hX]
  | netErr =>
      rw [cleanApply_netErr, hX]
      cases h2 : appliedMetrics i.mRes s <;> rfl
  | notOk =>
      rw [cleanApply_notOk, hX]
      cases h2 : appliedMetrics i.mRes s <;> rfl
  | okMalformed =>
      rw [cleanApply_okMalformed, hX]
      cases h2 : appliedMetrics i.mRes s <;> rfl

theorem applyAll_trades (i : TickInputs) (s : SyncState) :
    (applyAll i s).trades = (match i.tRes with | .okJson t => t | _ => s.trades) := by
  unfold applyAll
  rw [cleanApply_keep i.dRes putAudit SyncState.trades (fun a t => rfl),
    cleanApply_keep i.sRes putAgents SyncState.trades (fun a t => rfl),
    cleanApply_keep i.aRes putAccount SyncState.trades putAccount_trades,
    cleanApply_keep i.lRes putLogs SyncState.trades (fun a t => rfl)]
  have hX := cleanApply_keep i.mRes putMetrics SyncState.trades (fun a t => rfl) s
  cases i.tRes <;> simp [cleanApply_netErr, cleanApply_notOk, cleanApply_okMalformed,
    cleanApply_okJson, putTrades, hX]

theorem applyAll_logs (i : TickInputs) (s : SyncState) :
    (applyAll i s).logs = (match i.lRes with | .okJson l => l | _ => s.logs) := by
  unfold applyAll
  rw [cleanApply_keep i.dRes putAudit SyncState.logs (fun a t => rfl),
    cleanApply_keep i.sRes putAgents SyncState.logs (fun a t => rfl),
    cleanApply_keep i.aRes putAccount SyncState.logs putAccount_logs]
  have hX : (cleanApply i.tRes putTrades (cleanApply i.mRes putMetrics s)).logs = s.logs := by
    rw [cleanApply_keep i.tRes putTrades SyncState.logs (fun a t => rfl),
      cleanApply_keep i.mRes putMetrics SyncState.logs (fun a t => rfl)]
  cases i.lRes <;> simp [cleanApply_netErr, cleanApply_notOk, cleanApply_okMalformed,
    cleanApply_okJson, putLogs, hX]

theorem applyAll_account (i : TickInputs) (s : SyncState) :
    (applyAll i s).account_update =
      (match i.aRes with | .okJson a => some a | _ => s.account_update) := by
  unfold applyAll
  rw [cleanApply_keep i.dRes putAudit SyncState.account_update (fun a t => rfl),
    cleanApply_keep i.sRes putAgents SyncState.account_update (fun a t => rfl)]
  have hX : (cleanApply i.lRes putLogs (cleanApply i.tRes putTrades
      (cleanApply i.mRes putMetrics s))).account_update = s.account_update := by
    rw [cleanApply_keep i.lRes putLogs SyncState.account_update (fun a t => rfl),
      cleanApply_keep i.tRes putTrades SyncState.account_update (fun a t => rfl),
      cleanApply_keep i.mRes putMetrics SyncState.account_update (fun a t => rfl)]
  cases i.aRes <;> simp [cleanApply_netErr, cleanApply_notOk, cleanApply_okMalformed,
    cleanApply_okJson, putAccount_account, hX]

theorem applyAll_agents (i : TickInputs) (s : SyncState) :
    (applyAll i s).agentV2Status =
      (match i.sRes with | .okJson g => g | _ => s.agentV2Status) := by
  unfold applyAll
  rw [cleanApply_keep i.dRes putAudit SyncState.agentV2Status (fun a t => rfl)]
  have hX : (cleanApply i.aRes putAccount (cleanApply i.lRes putLogs
      (cleanApply i.tRes putTrades
        (cleanApply i.mRes putMetrics s)))).agentV2Status = s.agentV2Status := by
    rw [cleanApply_keep i.aRes putAccount SyncState.agentV2Status putAccount_agents,
      cleanApply_keep i.lRes putLogs SyncState.agentV2Status (fun a t => rfl),
      cleanApply_keep i.tRes putTrades SyncState.agentV2Status (fun a t => rfl),
      cleanApply_keep i.mRes putMetrics SyncState.agentV2Status (fun a t => rfl)]
  cases i.sRes <;> simp [cleanApply_netErr, cleanApply_notOk, cleanApply_okMalformed,
    cleanApply_okJson, putAgents, hX]

theorem applyAll_audit (i : TickInputs) (s : SyncState) :
    (applyAll i s).auditTrail = (match i.dRes with | .okJson d => d | _ => s.auditTrail) := by
  unfold applyAll
  have hX : (cleanApply i.sRes putAgents (cleanApply i.aRes putAccount
      (cleanApply i.lRes putLogs (cleanApply i.tRes putTrades
        (cleanApply i.mRes putMetrics s))))).auditTrail = s.auditTrail := by
    rw [cleanApply_keep i.sRes putAgents SyncState.auditTrail (fun a t => rfl),
      cleanApply_keep i.aRes putAccount SyncState.auditTrail putAccount_audit,
      cleanApply_keep i.lRes putLogs SyncState.auditTrail (fun a t => rfl),
      cleanApply_keep i.tRes putTrades SyncState.auditTrail (fun a t => rfl),
      cleanApply_keep i.mRes putMetrics SyncState.auditTrail (fun a t => rfl)]
  cases i.dRes <;> simp [cleanApply_netErr, cleanApply_notOk, cleanApply_okMalformed,
    cleanApply_okJson, putAudit, hX]

theorem pushPnlPoint_history_length (v : Int) (ct ft : String) (s : SyncState) :
    (pushPnlPoint v ct ft s).pnlHistory.length =
      if s.pnlHistory.length + 1 > MAX_HISTORY then s.pnlHistory.length
      else s.pnlHistory.length + 1 := by
  by_cases h : s.pnlHistory.length + 1 > MAX_HISTORY <;> simp [pushPnlPoint, h]

theorem pushPnlPoint_at_cap (v : Int) (ct ft : String) (s : SyncState)
    (h : s.pnlHistory.length = MAX_HISTORY) :
    (pushPnlPoint v ct ft s).pnlHistory = s.pnlHistory.tail ++ [v] := by
  have hgt : (s.pnlHistory ++ [v]).length > MAX_HISTORY := by simp [h]
  simp only [pushPnlPoint]
  rw [if_pos hgt]
  cases hh : s.pnlHistory with
  | nil => rw [hh] at h; simp [MAX_HISTORY] at h
  | cons x xs => simp

theorem pushPnlPoint_eqlen (v : Int) (ct ft : String) (s : SyncState)
    (hts : s.pnlTimestamps.length = s.pnlHistory.length)
    (hf : s.pnlFullTimestamps.length = s.pnlHistory.length) :
    (pushPnlPoint v ct ft s).pnlTimestamps.length =
      (pushPnlPoint v ct ft s).pnlHistory.length ∧
    (pushPnlPoint v ct ft s).pnlFullTimestamps.length =
      (pushPnlPoint v ct ft s).pnlHistory.length := by
  simp only [pushPnlPoint]
  by_cases hgt : (s.pnlHistory ++ [v]).length > MAX_HISTORY
  · rw [if_pos hgt]
    constructor <;> simp [hts, hf]
  · rw [if_neg hgt]
    constructor <;> simp [hts, hf]

theorem fetchSystemData_growth_le (i : TickInputs) (s : SyncState) :
    (fetchSystemData i s).pnlHistory.length ≤ s.pnlHistory.length + 1 := by
  unfold fetchSystemData
  split
  · exact Nat.le_succ _
  · have hp := (applyPhase_pnl i s).1
    cases hap : applyPhase i s with
    | error u =>
        rw [hap] at hp
        simp only [exceptState] at hp
        simp [hp]
    | ok u =>
        rw [hap] at hp
        simp only [exceptState] at hp
        cases hm : u.metrics with
        | none => simp only [hm]; simp [hp]
        | some m =>
            simp only [hm]
            rw [pushPnlPoint_history_length, hp]
            split <;> omega

theorem fetchSystemData_len_le_cap (i : TickInputs) (s : SyncState)
    (h : s.pnlHistory.length ≤ MAX_HISTORY) :
    (fetchSystemData i s).pnlHistory.length ≤ MAX_HISTORY := by
  unfold fetchSystemData
  split
  · exact h
  · have hp := (applyPhase_pnl i s).1
    cases hap : applyPhase i s with
    | error u =>
        rw [hap] at hp
        simp only [exceptState] at hp
        simp [hp, h]
    | ok u =>
        rw [hap] at hp
        simp only [exceptState] at hp
        cases hm : u.metrics with
        | none => simp only [hm]; simp [hp, h]
        | some m =>
            simp only [hm]
            rw [pushPnlPoint_history_length, hp]
            split <;> omega

theorem pushPnlPoint_metrics (v : Int) (ct ft : String) (s : SyncState) :
    (pushPnlPoint v ct ft s).metrics = s.metrics := by
  simp only [pushPnlPoint]; split <;> rfl

theorem pushPnlPoint_trades (v : Int) (ct ft : String) (s : SyncState) :
    (pushPnlPoint v ct ft s).trades = s.trades := by
  simp only [pushPnlPoint]; split <;> rfl

theorem pushPnlPoint_logs (v : Int) (ct ft : String) (s : SyncState) :
    (pushPnlPoint v ct ft s).logs = s.logs := by
  simp only [pushPnlPoint]; split <;> rfl

theorem pushPnlPoint_account (v : Int) (ct ft : String) (s : SyncState) :
    (pushPnlPoint v ct ft s).account_update = s.account_update := by
  simp only [pushPnlPoint]; split <;> rfl

theorem pushPnlPoint_agents (v : Int) (ct ft : String) (s : SyncState) :
    (pushPnlPoint v ct ft s).agentV2Status = s.agentV2Status := by
  simp only [pushPnlPoint]; split <;> rfl

theorem pushPnlPoint_audit (v : Int) (ct ft : String) (s : SyncState) :
    (pushPnlPoint v ct ft s).auditTrail = s.auditTrail := by
  simp only [pushPnlPoint]; split <;> rfl

theorem tick_preserves_eqlen (i : TickInputs) (s : SyncState)
    (hts : s.pnlTimestamps.length = s.pnlHistory.length)
    (hf : s.pnlFullTimestamps.length = s.pnlHistory.length) :
    (fetchSystemData i s).pnlTimestamps.length =
      (fetchSystemData i s).pnlHistory.length ∧
    (fetchSystemData i s).pnlFullTimestamps.length =
      (fetchSystemData i s).pnlHistory.length := by
  unfold fetchSystemData
  split
  · exact ⟨hts, hf⟩
  · have hp := applyPhase_pnl i s
    cases hap : applyPhase i s with
    | error u =>
        rw [hap] at hp
        obtain ⟨h1, h2, h3⟩ := hp
        simp only [exceptState] at h1 h2 h3
        rw [h1, h2, h3]
        exact ⟨hts, hf⟩
    | ok u =>
        rw [hap] at hp
        obtain ⟨h1, h2, h3⟩ := hp
        simp only [exceptState] at h1 h2 h3
        cases hm : u.metrics with
        | none =>
            simp only [hm]
            rw [h1, h2, h3]
            exact ⟨hts, hf⟩
        | some m =>
            simp only [hm]
            exact pushPnlPoint_eqlen m.daily_pnl i.compressedTime i.fullTime u
              (by rw [h1, h2]; exact hts) (by rw [h1, h3]; exact hf)

theorem fetchSystemData_clean_eq (i : TickInputs) (s : SyncState)
    (hauth : s.isAuth = true)
    (hm : i.mRes.throwFree = true) (ht : i.tRes.throwFree = true)
    (hl : i.lRes.throwFree = true) (ha : i.aRes.throwFree = true)
    (hg : i.sRes.throwFree = true) (hd : i.dRes.throwFree = true) :
    fetchSystemData i s =
      (match (applyAll i s).metrics with
        | none => applyAll i s
        | some m => pushPnlPoint m.daily_pnl i.compressedTime i.fullTime (applyAll i s)) := by
  unfold fetchSystemData
  rw [if_neg (by simp [hauth]), applyPhase_clean i s hm ht hl ha hg hd]

/-- C1 counterexample: one tick in which the metrics response is OK and
decodes, the trades response is OK but its body fails to decode, and the
logs, balance and agent responses are all OK and decode; because the
whole tick shares one try/catch, the decode failure on trades aborts the
rest of the tick, so the successful logs / balance / agent responses are
not applied (each field keeps its prior value), refuting the claim that a
malformed response on one endpoint does not prevent the successful
responses of the other endpoints from being applied. -/
theorem syncTick_not_endpoint_independent_cex :
    (let s0 : SyncState := { initState with isAuth := true };
     let i : TickInputs :=
       { mRes := .okJson ⟨5, 100000, none⟩, tRes := .okMalformed,
         lRes := .okJson [⟨"10:00:00", "alert"⟩], aRes := .okJson ⟨77⟩,
         sRes := .okJson [("Execution", "RUNNING")], dRes := .okJson [],
         compressedTime := "10:00:02", fullTime := "Jan 1, 2026, 10:00:02" };
     i.lRes = .okJson [⟨"10:00:00", "alert"⟩] ∧
     (fetchSystemData i s0).metrics = some ⟨5, 100000, none⟩ ∧
     (fetchSystemData i s0).logs = [] ∧
     (fetchSystemData i s0).account_update = none ∧
     (fetchSystemData i s0).agentV2Status = []) := by decide

theorem matchPush_projections (u : SyncState) (ct ft : String) :
    (match u.metrics with
      | none => u
      | some m => pushPnlPoint m.daily_pnl ct ft u).metrics = u.metrics ∧
    (match u.metrics with
      | none => u
      | some m => pushPnlPoint m.daily_pnl ct ft u).trades = u.trades ∧
    (match u.metrics with
      | none => u
      | some m => pushPnlPoint m.daily_pnl ct ft u).logs = u.logs ∧
    (match u.metrics with
      | none => u
      | some m => pushPnlPoint m.daily_pnl ct ft u).account_update = u.account_update ∧
    (match u.metrics with
      | none => u
      | some m => pushPnlPoint m.daily_pnl ct ft u).agentV2Status = u.agentV2Status ∧
    (match u.metrics with
      | none => u
      | some m => pushPnlPoint m.daily_pnl ct ft u).auditTrail = u.auditTrail := by
  cases h : u.metrics <;>
    simp [h, pushPnlPoint_metrics, pushPnlPoint_trades, pushPnlPoint_logs,
      pushPnlPoint_account, pushPnlPoint_agents, pushPnlPoint_audit]

/-- C1 (amended): only HTTP non-OK read responses are isolated per
endpoint.  In a tick free of network failures and decode failures, every
endpoint field ends at exactly its applied value: the decoded payload
when that endpoint was OK, the prior value when it was non-OK — so a
non-OK response on any one of the six read endpoints (for instance a
metrics HTTP 500) leaves its own field at the prior value while the
successful responses of the other endpoints are all applied in that same
tick, and the tick returns normally (the catch swallows every error), so
subsequent ticks run.  One cross-endpoint coupling survives: an applied
balance response dispatches the synchronous ACCOUNT_UPDATE listener,
which rewrites total_capital of whatever metrics value is then in state
(balanceAdjust), so metrics is otherwise-unchanged rather than
byte-identical on a failed-metrics tick with a successful balance.  A
decode failure or a network failure instead aborts the remainder of the
tick: fields applied before the throw keep their new values and all
later fields keep their prior values, as the counterexample shows. -/
theorem syncTick_nonOk_isolated (i : TickInputs) (s : SyncState)
    (hauth : s.isAuth = true)
    (hm : i.mRes.throwFree = true) (ht : i.tRes.throwFree = true)
    (hl : i.lRes.throwFree = true) (ha : i.aRes.throwFree = true)
    (hg : i.sRes.throwFree = true) (hd : i.dRes.throwFree = true) :
    (fetchSystemData i s).metrics = balanceAdjust i.aRes (appliedMetrics i.mRes s) ∧
    (fetchSystemData i s).trades =
      (match i.tRes with | .okJson t => t | _ => s.trades) ∧
    (fetchSystemData i s).logs =
      (match i.lRes with | .okJson l => l | _ => s.logs) ∧
    (fetchSystemData i s).account_update =
      (match i.aRes with | .okJson a => some a | _ => s.account_update) ∧
    (fetchSystemData i s).agentV2Status =
      (match i.sRes with | .okJson g => g | _ => s.agentV2Status) ∧
    (fetchSystemData i s).auditTrail =
      (match i.dRes with | .okJson d => d | _ => s.auditTrail) := by
  rw [fetchSystemData_clean_eq i s hauth hm ht hl ha hg hd]
  obtain ⟨p1, p2, p3, p4, p5, p6⟩ :=
    matchPush_projections (applyAll i s) i.compressedTime i.fullTime
  rw [p1, p2, p3, p4, p5, p6]
  exact ⟨applyAll_metrics i s, applyAll_trades i s, applyAll_logs i s,
    applyAll_account i s, applyAll_agents i s, applyAll_audit i s⟩

/-- C1 witness: the amended theorem applied to a concrete tick whose
metrics response is non-OK and whose other five responses are OK: every
other field takes its decoded payload, and the stale metrics value keeps
its daily_pnl and execution_mode while the applied balance response
rewrites its total_capital from 50000 to 77 through the ACCOUNT_UPDATE
listener. -/
theorem syncTick_nonOk_isolated_witness :
    (let s : SyncState := { initState with isAuth := true, metrics := some ⟨3, 50000, none⟩ };
     let i : TickInputs :=
       { mRes := .notOk, tRes := .okJson [⟨"NIFTY", "LONG", "OPEN", 12⟩],
         lRes := .okJson [⟨"10:00:00", "alert"⟩], aRes := .okJson ⟨77⟩,
         sRes := .okJson [("Execution", "RUNNING")], dRes := .okJson [⟨"t", "a", "NIFTY", "DONE"⟩],
         compressedTime := "10:00:02", fullTime := "Jan 1, 2026, 10:00:02" };
     (fetchSystemData i s).metrics = some ⟨3, 77, none⟩ ∧
     (fetchSystemData i s).trades = [⟨"NIFTY", "LONG", "OPEN", 12⟩] ∧
     (fetchSystemData i s).logs = [⟨"10:00:00", "alert"⟩] ∧
     (fetchSystemData i s).account_update = some ⟨77⟩ ∧
     (fetchSystemData i s).agentV2Status = [("Execution", "RUNNING")] ∧
     (fetchSystemData i s).auditTrail = [⟨"t", "a", "NIFTY", "DONE"⟩]) :=
  syncTick_nonOk_isolated _ _ rfl rfl rfl rfl rfl rfl rfl

/-- C4: over every sequence of sync-loop ticks started from a state whose
buffer respects the cap, the P&L buffer length never exceeds MAX_HISTORY
(900); and in a tick fired at exact capacity the buffer either stays
unchanged (aborted tick or no known metrics) or loses exactly its oldest
point while gaining the new one at the back (append-then-trim, FIFO). -/
theorem pnlHistory_capacity (is : List TickInputs) (s0 : SyncState) (i : TickInputs)
    (s : SyncState) (h0 : s0.pnlHistory.length ≤ MAX_HISTORY)
    (hcap : s.pnlHistory.length = MAX_HISTORY) :
    (is.foldl (fun t j => fetchSystemData j t) s0).pnlHistory.length ≤ MAX_HISTORY ∧
    ((fetchSystemData i s).pnlHistory = s.pnlHistory ∨
      ∃ v, (fetchSystemData i s).pnlHistory = s.pnlHistory.tail ++ [v]) := by
  constructor
  · have main : ∀ (js : List TickInputs) (t : SyncState), t.pnlHistory.length ≤ MAX_HISTORY →
        (js.foldl (fun t j => fetchSystemData j t) t).pnlHistory.length ≤ MAX_HISTORY := by
      intro js
      induction js with
      | nil => intro t ht; simpa using ht
      | cons j js ih => intro t ht; exact ih _ (fetchSystemData_len_le_cap j t ht)
    exact main is s0 h0
  · unfold fetchSystemData
    split
    · left; rfl
    · have hp := (applyPhase_pnl i s).1
      cases hap : applyPhase i s with
      | error u =>
          rw [hap] at hp
          simp only [exceptState] at hp
          left; exact hp
      | ok u =>
          rw [hap] at hp
          simp only [exceptState] at hp
          cases hm : u.metrics with
          | none => simp only [hm]; left; exact hp
          | some m =>
              simp only [hm]
              right
              refine ⟨m.daily_pnl, ?_⟩
              rw [pushPnlPoint_at_cap _ _ _ _ (by rw [hp]; exact hcap), hp]

/-- C4 witness: the capacity theorem applied to the empty tick sequence
from the initial state and to one all-non-OK tick fired at a state whose
buffer holds exactly 900 points. -/
theorem pnlHistory_capacity_witness :
    (let s : SyncState :=
       { initState with
         isAuth := true
         metrics := some ⟨1, 2, none⟩
         pnlHistory := List.replicate 900 0
         pnlTimestamps := List.replicate 900 "t"
         pnlFullTimestamps := List.replicate 900 "u" };
     let i : TickInputs := ⟨.notOk, .notOk, .notOk, .notOk, .notOk, .notOk, "c", "f"⟩;
     (([] : List TickInputs).foldl (fun t j => fetchSystemData j t) initState).pnlHistory.length ≤
        MAX_HISTORY ∧
     ((fetchSystemData i s).pnlHistory = s.pnlHistory ∨
       ∃ v, (fetchSystemData i s).pnlHistory = s.pnlHistory.tail ++ [v])) :=
  pnlHistory_capacity [] initState _ _ (by decide)
    (by show (List.replicate 900 (0 : Int)).length = MAX_HISTORY
        rw [List.length_replicate, MAX_HISTORY])

/-- C5 counterexample: a state whose buffer holds one point; the reset
branch of controlSystem clears pnlHistory (and logs) but leaves the two
timestamp sequences untouched, so immediately after the reset assignments
the three sequences are not all empty and no longer of equal length,
refuting the claim that the explicit session reset clears the buffer. -/
theorem sessionReset_keeps_timestamps_cex :
    (let s : SyncState :=
       { initState with
         isAuth := true
         pnlHistory := [5]
         pnlTimestamps := ["10:00:00"]
         pnlFullTimestamps := ["Jan 1, 10:00:00"] };
     (controlSystemReset true s).pnlHistory = [] ∧
     (controlSystemReset true s).pnlTimestamps ≠ [] ∧
     (controlSystemReset true s).pnlTimestamps.length ≠
       (controlSystemReset true s).pnlHistory.length) := by decide

/-- C5 (amended): the per-tick append-then-trim preserves the equal
length of the three parallel buffer sequences; the explicit session reset
however clears only the values sequence (and the logs), leaving both
timestamp sequences at their prior values, so equal length after the
reset assignments holds only if the buffer was already empty; all three
sequences are empty again only because the subsequent page reload
re-creates the script state (initState). -/
theorem bufferParallel_eqlen_amended (i : TickInputs) (s : SyncState)
    (hts : s.pnlTimestamps.length = s.pnlHistory.length)
    (hf : s.pnlFullTimestamps.length = s.pnlHistory.length) :
    ((fetchSystemData i s).pnlTimestamps.length =
        (fetchSystemData i s).pnlHistory.length ∧
      (fetchSystemData i s).pnlFullTimestamps.length =
        (fetchSystemData i s).pnlHistory.length) ∧
    ((controlSystemReset true s).pnlHistory = [] ∧
      (controlSystemReset true s).pnlTimestamps = s.pnlTimestamps ∧
      (controlSystemReset true s).pnlFullTimestamps = s.pnlFullTimestamps) ∧
    (initState.pnlHistory = [] ∧ initState.pnlTimestamps = [] ∧
      initState.pnlFullTimestamps = []) :=
  ⟨tick_preserves_eqlen i s hts hf, ⟨rfl, rfl, rfl⟩, rfl, rfl, rfl⟩

/-- C5 witness: the amended theorem applied to a concrete tick and a
state whose three sequences hold one point each. -/
theorem bufferParallel_eqlen_amended_witness :
    (let s : SyncState :=
       { initState with
         isAuth := true
         metrics := some ⟨1, 2, none⟩
         pnlHistory := [5]
         pnlTimestamps := ["10:00:00"]
         pnlFullTimestamps := ["f1"] };
     let i : TickInputs := ⟨.okJson ⟨9, 2, none⟩, .notOk, .notOk, .notOk, .notOk, .notOk,
        "10:00:02", "f2"⟩;
     ((fetchSystemData i s).pnlTimestamps.length =
         (fetchSystemData i s).pnlHistory.length ∧
       (fetchSystemData i s).pnlFullTimestamps.length =
         (fetchSystemData i s).pnlHistory.length) ∧
     ((controlSystemReset true s).pnlHistory = [] ∧
       (controlSystemReset true s).pnlTimestamps = s.pnlTimestamps ∧
       (controlSystemReset true s).pnlFullTimestamps = s.pnlFullTimestamps) ∧
     (initState.pnlHistory = [] ∧ initState.pnlTimestamps = [] ∧
       initState.pnlFullTimestamps = [])) :=
  bufferParallel_eqlen_amended _ _ (by decide) (by decide)

/-- C8 counterexample: a tick whose metrics fetch returns non-OK (and all
other endpoints are non-OK too), fired from a state where a previous tick
had applied metrics; because the append guard is the truthiness of
state.metrics rather than a success flag of the current tick, the buffer
still grows by one point (re-appending the stale daily_pnl value),
refuting the claim that the buffer does not grow on a tick whose metrics
fetch failed. -/
theorem bufferGrows_failedMetrics_cex :
    (let s : SyncState :=
       { initState with
         isAuth := true
         metrics := some ⟨7, 100000, none⟩
         pnlHistory := [7]
         pnlTimestamps := ["10:00:00"]
         pnlFullTimestamps := ["f1"] };
     let i : TickInputs := ⟨.notOk, .notOk, .notOk, .notOk, .notOk, .notOk, "10:00:02", "f2"⟩;
     i.mRes = .notOk ∧ (fetchSystemData i s).pnlHistory = [7, 7]) := by decide

/-- C8 (amended): the buffer append happens at most once per tick, on any
tick whatsoever; and on a clean authenticated tick below capacity the
buffer grows by exactly one point carrying the daily_pnl of the metrics
value in state at the end of the application phase — the freshly decoded
payload when the metrics fetch was OK, but equally the stale prior value
when the metrics fetch returned non-OK (the append guard is the
truthiness of state.metrics, not a per-tick success flag); the buffer
stays unchanged only when no metrics value has ever been applied. -/
theorem bufferAppend_oncePerTick_amended (i : TickInputs) (s : SyncState)
    (hauth : s.isAuth = true)
    (hm : i.mRes.throwFree = true) (ht : i.tRes.throwFree = true)
    (hl : i.lRes.throwFree = true) (ha : i.aRes.throwFree = true)
    (hg : i.sRes.throwFree = true) (hd : i.dRes.throwFree = true)
    (hroom : s.pnlHistory.length < MAX_HISTORY) :
    (∀ (j : TickInputs) (t : SyncState),
        (fetchSystemData j t).pnlHistory.length ≤ t.pnlHistory.length + 1) ∧
    (appliedMetrics i.mRes s = none → (fetchSystemData i s).pnlHistory = s.pnlHistory) ∧
    (∀ m, appliedMetrics i.mRes s = some m →
        (fetchSystemData i s).pnlHistory = s.pnlHistory ++ [m.daily_pnl]) := by
  have hp := applyPhase_pnl i s
  rw [applyPhase_clean i s hm ht hl ha hg hd] at hp
  simp only [exceptState] at hp
  refine ⟨fun j t => fetchSystemData_growth_le j t, ?_, ?_⟩
  · intro hnone
    rw [fetchSystemData_clean_eq i s hauth hm ht hl ha hg hd, applyAll_metrics, hnone,
      balanceAdjust_none]
    exact hp.1
  · intro m hsome
    obtain ⟨m2, hm2, hdp⟩ := balanceAdjust_daily i.aRes m
    rw [fetchSystemData_clean_eq i s hauth hm ht hl ha hg hd, applyAll_metrics, hsome, hm2]
    simp only [pushPnlPoint]
    rw [if_neg (by simp [hp.1]; omega)]
    simp [hp.1, hdp]

/-- C8 witness: the amended theorem applied to a concrete clean tick with
a non-OK metrics response and a previously known metrics value; the
buffer grows by the stale value. -/
theorem bufferAppend_oncePerTick_amended_witness :
    (let s : SyncState :=
       { initState with
         isAuth := true
         metrics := some ⟨7, 100000, none⟩
         pnlHistory := [7]
         pnlTimestamps := ["10:00:00"]
         pnlFullTimestamps := ["f1"] };
     let i : TickInputs := ⟨.notOk, .notOk, .notOk, .notOk, .notOk, .notOk, "10:00:02", "f2"⟩;
     (∀ (j : TickInputs) (t : SyncState),
        (fetchSystemData j t).pnlHistory.length ≤ t.pnlHistory.length + 1) ∧
     (appliedMetrics i.mRes s = none → (fetchSystemData i s).pnlHistory = s.pnlHistory) ∧
     (∀ m, appliedMetrics i.mRes s = some m →
        (fetchSystemData i s).pnlHistory = s.pnlHistory ++ [m.daily_pnl])) :=
  bufferAppend_oncePerTick_amended _ _ rfl rfl rfl rfl rfl rfl rfl (by decide)

/-- C2: the mode-switch machine is single-flight and never stays locked.
If a switch is already in flight, a new confirmModeSwitch call returns
immediately with no network request and no state change; every call that
did issue a network request (any terminal path of an attempt: success,
backend rejection, timeout, network failure, decode failure, HTTP error)
ends with the in-flight flag cleared by the finally clause; and the only
way a call ends with the flag set is the guard path of a machine that was
already locked when the call began, which it leaves unchanged. -/
theorem modeSwitch_single_flight (mode : String) (c : Bool) (resp : ModeResp)
    (ti : TickInputs) (s : AppState) :
    (s.isSwitchingMode = true →
      confirmModeSwitch mode c resp ti s = (s, false, .unavailable)) ∧
    ((confirmModeSwitch mode c resp ti s).2.1 = true →
      (confirmModeSwitch mode c resp ti s).1.isSwitchingMode = false) ∧
    ((confirmModeSwitch mode c resp ti s).1.isSwitchingMode = true →
      confirmModeSwitch mode c resp ti s = (s, false, .unavailable) ∧
        s.isSwitchingMode = true) := by
  unfold confirmModeSwitch
  by_cases hs : s.isSwitchingMode
  · simp [hs]
  · by_cases hr : (mode = "REAL" && !c) = true
    · simp [hs, hr]
    · simp [hs, hr]

/-- C2 witness: the single-flight theorem applied to a call on a machine
already in flight: the call is rejected with no request issued. -/
theorem modeSwitch_single_flight_witness :
    (let locked : AppState := { sync := initState, ui := ⟨none, none⟩, isSwitchingMode := true };
     let ti : TickInputs := ⟨.notOk, .notOk, .notOk, .notOk, .notOk, .notOk, "c", "f"⟩;
     confirmModeSwitch "PAPER" true (.body "success" "PAPER" "LIVE" none none) ti locked =
       (locked, false, .unavailable)) :=
  (modeSwitch_single_flight "PAPER" true (.body "success" "PAPER" "LIVE" none none) _ _).1 rfl

/-- C3: a requested switch to REAL whose destructive-action confirmation
is declined terminates with the whole application state unchanged (mode
display, in-flight flag, and every snapshot field) and with no network
request issued; the same holds on the in-flight guard path, where the
confirm dialog is never shown. -/
theorem modeSwitch_real_declined (resp : ModeResp) (ti : TickInputs) (s : AppState) :
    confirmModeSwitch "REAL" false resp ti s =
      (s, false, if s.isSwitchingMode then .unavailable else .declined) := by
  unfold confirmModeSwitch
  by_cases hs : s.isSwitchingMode <;> simp [hs]

/-! ## Helper lemmas about the downsampler -/

/-- Number of indices in the window of n consecutive indices starting at
k that are multiples of the stride: the count of points the stride
decimation keeps. -/
def countKeep (st : Nat) : Nat → Nat → Nat
  | _, 0 => 0
  | k, n + 1 => (if k % st = 0 then 1 else 0) + countKeep st (k + 1) n

theorem enumFrom_filter_mod_length {α : Type} (st : Nat) (l : List α) :
    ∀ k, (((List.enumFrom k l).filter (fun p => p.fst % st == 0)).map Prod.snd).length =
      countKeep st k l.length := by
  induction l with
  | nil => intro k; rfl
  | cons a t ih =>
      intro k
      simp only [List.enumFrom_cons, List.filter_cons, List.length_cons]
      by_cases h : k % st = 0
      · simp [h, ih, countKeep]; omega
      · simp [h, ih, countKeep]

theorem strideFilter_length {α : Type} (st : Nat) (l : List α) :
    (strideFilter st l).length = countKeep st 0 l.length := by
  unfold strideFilter
  exact enumFrom_filter_mod_length st l 0

theorem countKeep_formula (st : Nat) (hst : 0 < st) :
    ∀ (n k : Nat), countKeep st k n = (n - ((st - k % st) % st) + st - 1) / st := by
  intro n
  induction n with
  | zero =>
      intro k
      have he : 0 - ((st - k % st) % st) + st - 1 = st - 1 := by omega
      rw [countKeep, he, Nat.div_eq_of_lt (by omega)]
  | succ n ih =>
      intro k
      rw [countKeep, ih (k + 1)]
      rcases Nat.lt_or_ge st 2 with h2 | h2
      · have hst1 : st = 1 := by omega
        subst hst1
        simp [Nat.mod_one, Nat.div_one]
        omega
      · have hr : k % st < st := Nat.mod_lt _ hst
        have hk1 : (k + 1) % st = (k % st + 1) % st := by
          conv_lhs => rw [Nat.add_mod, Nat.mod_eq_of_lt (show 1 < st by omega)]
        by_cases hr0 : k % st = 0
        · have hd : (st - k % st) % st = 0 := by rw [hr0, Nat.sub_zero, Nat.mod_self]
          have hd1 : (k + 1) % st = 1 := by
            rw [hk1, hr0, Nat.zero_add, Nat.mod_eq_of_lt (by omega)]
          have hd2 : (st - (k + 1) % st) % st = st - 1 := by
            rw [hd1, Nat.mod_eq_of_lt (by omega)]
          rw [hd2, hd, if_pos hr0]
          have hrhs : n + 1 - 0 + st - 1 = n + st := by omega
          rw [hrhs, Nat.add_div_right n hst]
          rcases Nat.lt_or_ge n (st - 1) with hn | hn
          · have hl1 : n - (st - 1) + st - 1 = st - 1 := by omega
            rw [hl1, Nat.div_eq_of_lt (by omega), Nat.div_eq_of_lt (by omega)]
          · have hl1 : n - (st - 1) + st - 1 = n := by omega
            rw [hl1]
            omega
        · have hd : (st - k % st) % st = st - k % st :=
            Nat.mod_eq_of_lt (by omega)
          simp only [if_neg hr0]
          by_cases hrtop : k % st = st - 1
          · have hd1 : (k + 1) % st = 0 := by
              rw [hk1, hrtop]
              have : st - 1 + 1 = st := by omega
              rw [this, Nat.mod_self]
            have hd2 : (st - (k + 1) % st) % st = 0 := by
              rw [hd1, Nat.sub_zero, Nat.mod_self]
            rw [hd2, hd]
            have heq : n + 1 - (st - k % st) + st - 1 = n - 0 + st - 1 := by omega
            rw [heq, Nat.zero_add]
          · have hd1 : (k + 1) % st = k % st + 1 := by
              rw [hk1, Nat.mod_eq_of_lt (by omega)]
            have hd2 : (st - (k + 1) % st) % st = st - k % st - 1 := by
              rw [hd1, Nat.mod_eq_of_lt (by omega)]
              omega
            rw [hd2, hd]
            rcases Nat.lt_or_ge n (st - k % st - 1) with hn | hn
            · have hl1 : n - (st - k % st - 1) + st - 1 = st - 1 := by omega
              have hl2 : n + 1 - (st - k % st) + st - 1 = st - 1 := by omega
              rw [hl1, hl2, Nat.zero_add]
            · have hl1 : n - (st - k % st - 1) + st - 1 = n + k % st := by omega
              have hl2 : n + 1 - (st - k % st) + st - 1 = n + k % st := by omega
              rw [hl1, hl2, Nat.zero_add]

theorem countKeep_zero_start (st : Nat) (hst : 0 < st) (n : Nat) :
    countKeep st 0 n = (n + st - 1) / st := by
  rw [countKeep_formula st hst n 0]
  have : (st - 0 % st) % st = 0 := by
    rw [Nat.zero_mod, Nat.sub_zero, Nat.mod_self]
  rw [this]
  have h2 : n - 0 + st - 1 = n + st - 1 := by omega
  rw [h2]

theorem rangeConfig_step_pos (r : String) (c : RangeCfg) (h : rangeConfig r = some c) :
    0 < c.step := by
  unfold rangeConfig at h
  split_ifs at h <;> injection h with h2 <;> subst h2 <;> decide

theorem rangeConfig_oneD : rangeConfig "1D" = some ⟨500, 1⟩ := by
  unfold rangeConfig
  simp

theorem getFiltered_real (range : String) (cfg : RangeCfg)
    (hcfg : rangeConfig range = some cfg) (hist : List Int) (ts fts : List String)
    (rand : Nat → Int) (nowMs : Int) (hcond : 50 ≤ hist.length ∨ range = "1D") :
    getFilteredChartData range hist ts fts rand nowMs =
      (if cfg.step > 1 then
        { labels := strideFilter cfg.step (ts.drop (hist.length - cfg.points))
          data := strideFilter cfg.step (hist.drop (hist.length - cfg.points))
          fullTimestamps := strideFilter cfg.step (fts.drop (hist.length - cfg.points)) }
      else
        { labels := ts.drop (hist.length - cfg.points)
          data := hist.drop (hist.length - cfg.points)
          fullTimestamps := fts.drop (hist.length - cfg.points) }) := by
  have hb : (decide (hist.length < 50) && (range != "1D")) = false := by
    rcases hcond with h | h
    · simp [Nat.not_lt.2 h]
    · simp [h]
  unfold getFilteredChartData
  rw [hcfg]
  simp only [Option.getD_some, hb, Bool.false_eq_true, if_false]

theorem getFiltered_synthetic (range : String) (hist : List Int) (ts fts : List String)
    (rand : Nat → Int) (nowMs : Int) (h50 : hist.length < 50) (h1d : range ≠ "1D") :
    getFilteredChartData range hist ts fts rand nowMs =
      mockHistoricalData range rand nowMs := by
  have hb : (decide (hist.length < 50) && (range != "1D")) = true := by
    simp [h50, h1d]
  unfold getFilteredChartData
  simp only [hb, if_true]

theorem mockHistoricalData_lengths (range : String) (rand : Nat → Int) (nowMs : Int) :
    (mockHistoricalData range rand nowMs).labels.length = 100 ∧
    (mockHistoricalData range rand nowMs).data.length = 100 ∧
    (mockHistoricalData range rand nowMs).fullTimestamps.length = 100 := by
  unfold mockHistoricalData
  refine ⟨?_, ?_, ?_⟩ <;> rw [List.length_map, List.length_range]

/-- C6: for every buffer whose three parallel sequences have equal length
and every supported range, the downsampler returns three aligned
sequences of equal length; in the real-data branch (buffer holds at least
50 points, or the range is 1D) the output length is the ceiling of
min(bufferLength, pointLimit) / strideStep — for range 1D this is
min(bufferLength, 500) — and in the synthetic branch the output length is
exactly 100 and the series is not empty. -/
theorem downsampler_lengths (range : String) (cfg : RangeCfg)
    (hcfg : rangeConfig range = some cfg) (hist : List Int) (ts fts : List String)
    (hts : ts.length = hist.length) (hfts : fts.length = hist.length)
    (rand : Nat → Int) (nowMs : Int) :
    ((getFilteredChartData range hist ts fts rand nowMs).labels.length =
        (getFilteredChartData range hist ts fts rand nowMs).data.length ∧
      (getFilteredChartData range hist ts fts rand nowMs).fullTimestamps.length =
        (getFilteredChartData range hist ts fts rand nowMs).data.length) ∧
    (50 ≤ hist.length ∨ range = "1D" →
      (getFilteredChartData range hist ts fts rand nowMs).data.length =
        (min hist.length cfg.points + cfg.step - 1) / cfg.step) ∧
    (range = "1D" →
      (getFilteredChartData range hist ts fts rand nowMs).data.length =
        min hist.length 500) ∧
    (hist.length < 50 ∧ range ≠ "1D" →
      (getFilteredChartData range hist ts fts rand nowMs).data.length = 100 ∧
      (getFilteredChartData range hist ts fts rand nowMs).data ≠ []) := by
  have hstep := rangeConfig_step_pos range cfg hcfg
  by_cases hbr : hist.length < 50 ∧ range ≠ "1D"
  · obtain ⟨hb1, hb2⟩ := hbr
    rw [getFiltered_synthetic range hist ts fts rand nowMs hb1 hb2]
    obtain ⟨hm1, hm2, hm3⟩ := mockHistoricalData_lengths range rand nowMs
    refine ⟨⟨by rw [hm1, hm2], by rw [hm3, hm2]⟩, ?_, ?_, ?_⟩
    · intro h
      rcases h with h | h
      · omega
      · exact absurd h hb2
    · intro h
      exact absurd h hb2
    · intro _
      refine ⟨hm2, ?_⟩
      exact List.ne_nil_of_length_pos (by rw [hm2]; omega)
  · have hcond : 50 ≤ hist.length ∨ range = "1D" := by
      by_cases h1d : range = "1D"
      · exact Or.inr h1d
      · exact Or.inl (Nat.le_of_not_lt fun hlt => hbr ⟨hlt, h1d⟩)
    rw [getFiltered_real range cfg hcfg hist ts fts rand nowMs hcond]
    have hmin : hist.length - (hist.length - cfg.points) = min hist.length cfg.points := by
      omega
    have hmints : ts.length - (hist.length - cfg.points) = min hist.length cfg.points := by
      omega
    have hminfts : fts.length - (hist.length - cfg.points) = min hist.length cfg.points := by
      omega
    have hcfg1d : range = "1D" → cfg = ⟨500, 1⟩ := by
      intro h1d
      rw [h1d, rangeConfig_oneD] at hcfg
      injection hcfg with h2
      exact h2.symm
    by_cases hs1 : cfg.step > 1
    · simp only [if_pos hs1]
      simp only [strideFilter_length, List.length_drop, hmin, hmints, hminfts]
      refine ⟨⟨by trivial, by trivial⟩, ?_, ?_, ?_⟩
      · intro _
        exact countKeep_zero_start cfg.step hstep _
      · intro h1d
        have := hcfg1d h1d
        rw [this] at hs1
        exact absurd hs1 (by decide)
      · intro h
        exact absurd h hbr
    · have hseq : cfg.step = 1 := by omega
      simp only [if_neg hs1]
      simp only [List.length_drop, hmin, hmints, hminfts]
      refine ⟨⟨by trivial, by trivial⟩, ?_, ?_, ?_⟩
      · intro _
        rw [hseq]
        omega
      · intro h1d
        rw [hcfg1d h1d]
      · intro h
        exact absurd h hbr

/-- C6 witness: the length theorem applied to range 5D and a buffer of 60
points: the real branch is taken and the output length is ceil(60/2). -/
theorem downsampler_lengths_witness :
    (let hist : List Int := List.replicate 60 0;
     let ts : List String := List.replicate 60 "x";
     ((getFilteredChartData "5D" hist ts ts (fun _ => 0) 0).labels.length =
         (getFilteredChartData "5D" hist ts ts (fun _ => 0) 0).data.length ∧
       (getFilteredChartData "5D" hist ts ts (fun _ => 0) 0).fullTimestamps.length =
         (getFilteredChartData "5D" hist ts ts (fun _ => 0) 0).data.length) ∧
     (50 ≤ hist.length ∨ "5D" = "1D" →
       (getFilteredChartData "5D" hist ts ts (fun _ => 0) 0).data.length =
         (min hist.length (1500 : Nat) + 2 - 1) / 2) ∧
     ("5D" = "1D" →
       (getFilteredChartData "5D" hist ts ts (fun _ => 0) 0).data.length =
         min hist.length 500) ∧
     (hist.length < 50 ∧ "5D" ≠ "1D" →
       (getFilteredChartData "5D" hist ts ts (fun _ => 0) 0).data.length = 100 ∧
       (getFilteredChartData "5D" hist ts ts (fun _ => 0) 0).data ≠ [])) :=
  downsampler_lengths "5D" ⟨1500, 2⟩ (by decide) _ _ _ (by simp) (by simp) (fun _ => 0) 0

/-- C7 counterexample: with an empty buffer and range 3M the synthetic
branch is taken, and its output depends on the stream of Math.random
draws the call consumes (and on the clock): two calls identical in buffer
and range but differing in the ambient random draws return different
data, refuting determinism of repeated calls through the synthetic
branch. -/
theorem downsampler_nondeterministic_cex :
    (getFilteredChartData "3M" [] [] [] (fun _ => 0) 0).data ≠
      (getFilteredChartData "3M" [] [] [] (fun _ => 1) 0).data := by decide

/-- C7 (amended): the real-data branch of the downsampler is
deterministic and pure — whenever the buffer holds at least 50 points or
the range is 1D, the output is a function of the buffer and range alone,
identical across calls regardless of the ambient random stream and
clock, and no branch mutates the buffer (slice and filter build new
arrays); the synthetic branch however consumes Math.random and the
current time, so two calls on an identical empty buffer may differ, as
the counterexample shows. -/
theorem downsampler_real_deterministic (range : String) (hist : List Int)
    (ts fts : List String) (r1 r2 : Nat → Int) (n1 n2 : Int)
    (h : 50 ≤ hist.length ∨ range = "1D") :
    getFilteredChartData range hist ts fts r1 n1 =
      getFilteredChartData range hist ts fts r2 n2 := by
  have hb : (decide (hist.length < 50) && (range != "1D")) = false := by
    rcases h with h | h
    · simp [Nat.not_lt.2 h]
    · simp [h]
  unfold getFilteredChartData
  simp only [hb, Bool.false_eq_true, if_false]

/-- C7 witness: the determinism theorem applied to a 60-point buffer at
range 5D under two different random streams and clocks. -/
theorem downsampler_real_deterministic_witness :
    getFilteredChartData "5D" (List.replicate 60 0) (List.replicate 60 "x")
        (List.replicate 60 "x") (fun _ => 0) 0 =
      getFilteredChartData "5D" (List.replicate 60 0) (List.replicate 60 "x")
        (List.replicate 60 "x") (fun _ => 1) 999 :=
  downsampler_real_deterministic "5D" _ _ _ _ _ _ _ (Or.inl (by simp))

theorem getFiltered_oneD (hist : List Int) (ts fts : List String)
    (rand : Nat → Int) (nowMs : Int) :
    getFilteredChartData "1D" hist ts fts rand nowMs =
      { labels := ts.drop (hist.length - 500)
        data := hist.drop (hist.length - 500)
        fullTimestamps := fts.drop (hist.length - 500) } := by
  rw [getFiltered_real "1D" ⟨500, 1⟩ rangeConfig_oneD hist ts fts rand nowMs (Or.inr rfl)]
  norm_num

theorem getFiltered_default_cfg (range : String) (hnone : rangeConfig range = none)
    (hist : List Int) (ts fts : List String) (rand : Nat → Int) (nowMs : Int)
    (h50 : 50 ≤ hist.length) :
    getFilteredChartData range hist ts fts rand nowMs =
      { labels := ts.drop (hist.length - 500)
        data := hist.drop (hist.length - 500)
        fullTimestamps := fts.drop (hist.length - 500) } := by
  have hb : (decide (hist.length < 50) && (range != "1D")) = false := by
    simp [Nat.not_lt.2 h50]
  unfold getFilteredChartData
  rw [hnone]
  simp only [Option.getD_none, hb, Bool.false_eq_true, if_false]
  norm_num

/-- C10: a range string outside the six supported values falls back to
the 1D configuration (pointLimit 500, stride 1) for slicing, yet, because
the range string is not literally 1D, the synthetic branch fires whenever
the buffer holds fewer than 50 points — where range 1D itself would
return the real short buffer verbatim; with at least 50 points the
unrecognized range returns exactly what 1D returns. -/
theorem unsupportedRange_fallback (range : String) (hnone : rangeConfig range = none)
    (hist : List Int) (ts fts : List String) (rand : Nat → Int) (nowMs : Int) :
    (hist.length < 50 →
      getFilteredChartData range hist ts fts rand nowMs =
        mockHistoricalData range rand nowMs ∧
      (getFilteredChartData "1D" hist ts fts rand nowMs).data = hist) ∧
    (50 ≤ hist.length →
      getFilteredChartData range hist ts fts rand nowMs =
        getFilteredChartData "1D" hist ts fts rand nowMs) := by
  have h1d : range ≠ "1D" := by
    intro h
    rw [h, rangeConfig_oneD] at hnone
    exact Option.noConfusion hnone
  constructor
  · intro h50
    refine ⟨getFiltered_synthetic range hist ts fts rand nowMs h50 h1d, ?_⟩
    rw [getFiltered_oneD hist ts fts rand nowMs]
    have h0 : hist.length - 500 = 0 := by omega
    simp [h0]
  · intro h50
    rw [getFiltered_default_cfg range hnone hist ts fts rand nowMs h50,
      getFiltered_oneD hist ts fts rand nowMs]

/-- C10 witness: the fallback theorem applied to the unsupported range 2D
with a three-point buffer (synthetic data, where 1D returns the buffer)
and the short-buffer conclusion instantiated. -/
theorem unsupportedRange_fallback_witness :
    ((([1, 2, 3] : List Int).length < 50 →
      getFilteredChartData "2D" [1, 2, 3] ["a", "b", "c"] ["d", "e", "f"] (fun _ => 0) 0 =
        mockHistoricalData "2D" (fun _ => 0) 0 ∧
      (getFilteredChartData "1D" [1, 2, 3] ["a", "b", "c"] ["d", "e", "f"]
          (fun _ => 0) 0).data = [1, 2, 3]) ∧
    (50 ≤ ([1, 2, 3] : List Int).length →
      getFilteredChartData "2D" [1, 2, 3] ["a", "b", "c"] ["d", "e", "f"] (fun _ => 0) 0 =
        getFilteredChartData "1D" [1, 2, 3] ["a", "b", "c"] ["d", "e", "f"] (fun _ => 0) 0)) :=
  unsupportedRange_fallback "2D" (by decide) [1, 2, 3] ["a", "b", "c"] ["d", "e", "f"]
    (fun _ => 0) 0

/-- C9: a per-instrument payload with ltp = 0 is normalized to null and
rendered as the loading shimmer: the display is the loading constructor,
which carries no price and no computed percentage; a payload with a
genuine nonzero ltp (and a status that does not resolve to LOADING) is
rendered as a price display carrying that ltp, keeping the two cases
structurally distinct. -/
theorem ltpZero_renders_loading (selectedMarket : String) (item : MarketItem)
    (hz : item.ltp = some 0) :
    updateMarketItem selectedMarket item =
      .loading (jsStringOr item.instrument selectedMarket) ∧
    (∀ (item2 : MarketItem) (v : Int), item2.ltp = some v → v ≠ 0 →
      jsStringOr item2.status (jsStringOr item2.data_status "LIVE") ≠ "LOADING" →
      ∃ ch pct cls, updateMarketItem selectedMarket item2 =
        .price (jsStringOr item2.instrument selectedMarket) v ch pct cls) := by
  constructor
  · unfold updateMarketItem
    rw [hz]
    simp
  · intro item2 v hv hvne hstat
    unfold updateMarketItem
    rw [hv]
    simp only [if_neg hvne]
    simp [hstat]

/-- C9 witness: the theorem applied to a concrete instrument payload with
ltp 0 (rendered loading) and, for the distinctness part, a payload with
ltp 100. -/
theorem ltpZero_renders_loading_witness :
    (updateMarketItem "NIFTY" ⟨some "NIFTY", some 0, some 100, none, none⟩ =
      .loading (jsStringOr (some "NIFTY") "NIFTY") ∧
    (∀ (item2 : MarketItem) (v : Int), item2.ltp = some v → v ≠ 0 →
      jsStringOr item2.status (jsStringOr item2.data_status "LIVE") ≠ "LOADING" →
      ∃ ch pct cls, updateMarketItem "NIFTY" item2 =
        .price (jsStringOr item2.instrument "NIFTY") v ch pct cls)) :=
  ltpZero_renders_loading "NIFTY" ⟨some "NIFTY", some 0, some 100, none, none⟩ rfl
